import Mathlib

/-!
Verification of the collision-filter and affine-transform core of pymunk's
manually written chipmunk layer (`src/pymunk/_chipmunk_manual.py`).

The Python module defines two immutable namedtuple value types:

* `ShapeFilter(group=0, categories=0xffffffff, mask=0xffffffff)` — stores the
  three integer fields exactly as given (Python integers are unbounded).
* `Transform(a=1, b=0, c=0, d=1, tx=0, ty=0)` plus `Transform.identity()`.

A Python call site may supply or omit each keyword argument independently, so
each constructor argument is embedded as an `Option`: `none` is an omitted
argument, which takes the source default.

The filtering predicate `shouldCollide` and the point map `Transform.apply`
live in the wrapped native engine, not in this module; they are modelled from
the specification and marked as such on their doc comments.
-/

namespace Pymunk

/-- Embedding of the `ShapeFilter` namedtuple: three unbounded integer
fields, stored exactly as constructed. -/
structure ShapeFilter where
  group : Int
  categories : Int
  mask : Int
deriving DecidableEq

/-- Embedding of `ShapeFilter.__new__(cls, group=0, categories=0xffffffff,
mask=0xffffffff)`: a `none` argument is an omitted keyword argument and takes
the source default; the fields are stored as given, with no masking. -/
def ShapeFilter.new (g c m : Option Int) : ShapeFilter :=
  { group := g.getD 0, categories := c.getD 0xffffffff, mask := m.getD 0xffffffff }

/-- Modelled from the spec: the collision filtering predicate
`shouldCollide(filterA, filterB)` (the `cpShapeFilterReject` logic of the
wrapped native engine, which is not part of this module). Step 1: a shared
non-zero group always rejects. Step 2: otherwise both bidirectional
category/mask bit tests must be non-zero. Bitwise and on Python's unbounded
integers is two's-complement `Int.land`. -/
def shouldCollide (a b : ShapeFilter) : Bool :=
  if a.group ≠ 0 ∧ a.group = b.group then false
  else decide (Int.land a.categories b.mask ≠ 0) && decide (Int.land b.categories a.mask ≠ 0)

/-- Embedding of the `Transform` namedtuple: six scalar coefficients of a
2x3 affine matrix. Scalars are modelled as rationals (exact arithmetic on
the integer-valued inputs all claims use). -/
structure Transform where
  a : ℚ
  b : ℚ
  c : ℚ
  d : ℚ
  tx : ℚ
  ty : ℚ
deriving DecidableEq

/-- Embedding of `Transform.__new__(cls, a=1, b=0, c=0, d=1, tx=0, ty=0)`:
a `none` argument is an omitted keyword argument and takes the identity
default of that field. -/
def Transform.new (a b c d tx ty : Option ℚ) : Transform :=
  { a := a.getD 1, b := b.getD 0, c := c.getD 0, d := d.getD 1,
    tx := tx.getD 0, ty := ty.getD 0 }

/-- Embedding of `Transform.identity()`: `return Transform(1,0,0,1,0,0)`,
all six arguments supplied positionally. -/
def Transform.identity : Transform :=
  Transform.new (some 1) (some 0) (some 0) (some 1) (some 0) (some 0)

/-- Modelled from the spec: `Transform.apply(point)` (the point-mapping
operation of the wrapped engine, not part of this module) maps `(x, y)` to
`(a*x + c*y + tx, b*x + d*y + ty)`. -/
def Transform.apply (t : Transform) (p : ℚ × ℚ) : ℚ × ℚ :=
  (t.a * p.1 + t.c * p.2 + t.tx, t.b * p.1 + t.d * p.2 + t.ty)

/-! ### Helper lemmas on `Int.land` -/

/-- Bitwise difference of `0` with anything is `0`. -/
lemma nat_ldiff_zero_left (n : Nat) : Nat.ldiff 0 n = 0 := by
  apply Nat.eq_of_testBit_eq
  intro i
  simp [Nat.testBit_ldiff]

/-- `Int.land x 0 = 0` for every integer, negative ones included. -/
lemma int_land_zero (x : Int) : Int.land x 0 = 0 := by
  cases x with
  | ofNat m => simp [Int.land]
  | negSucc m => simpa [Int.land] using congrArg Int.ofNat (nat_ldiff_zero_left m)

/-- `Int.land 0 x = 0` for every integer, negative ones included. -/
lemma int_zero_land (x : Int) : Int.land 0 x = 0 := by
  cases x with
  | ofNat m => simp [Int.land]
  | negSucc m => simpa [Int.land] using congrArg Int.ofNat (nat_ldiff_zero_left m)

/-- A non-negative integer below `2^32` is unchanged by masking with the
default all-ones 32-bit mask. -/
lemma int_land_allbits (x : Int) (h0 : 0 ≤ x) (h : x < 2 ^ 32) :
    Int.land x 0xffffffff = x := by
  obtain ⟨n, rfl⟩ := Int.eq_ofNat_of_zero_le h0
  have hn : n < 2 ^ 32 := by exact_mod_cast h
  have h2 : n &&& 4294967295 = n := by
    have h3 : (4294967295 : Nat) = 2 ^ 32 - 1 := by norm_num
    rw [h3]
    exact Nat.and_pow_two_sub_one_of_lt_two_pow hn
  calc Int.land (Int.ofNat n) 0xffffffff = Int.ofNat (n &&& 4294967295) := rfl
    _ = Int.ofNat n := by rw [h2]

/-- Mirror image of `int_land_allbits` with the mask on the left. -/
lemma int_allbits_land (x : Int) (h0 : 0 ≤ x) (h : x < 2 ^ 32) :
    Int.land 0xffffffff x = x := by
  obtain ⟨n, rfl⟩ := Int.eq_ofNat_of_zero_le h0
  have hn : n < 2 ^ 32 := by exact_mod_cast h
  have h2 : 4294967295 &&& n = n := by
    have h3 : (4294967295 : Nat) = 2 ^ 32 - 1 := by norm_num
    rw [Nat.and_comm, h3]
    exact Nat.and_pow_two_sub_one_of_lt_two_pow hn
  calc Int.land 0xffffffff (Int.ofNat n) = Int.ofNat (4294967295 &&& n) := rfl
    _ = Int.ofNat n := by rw [h2]

/-! ### Claims -/

/-- Claim C1: for every pair of filters `A` and `B`, if `A.group ≠ 0` and
`A.group = B.group`, then `shouldCollide A B` is `false`, regardless of the
categories and mask on either side. -/
theorem shouldCollide_same_nonzero_group (A B : ShapeFilter)
    (h1 : A.group ≠ 0) (h2 : A.group = B.group) : shouldCollide A B = false := by
  unfold shouldCollide
  rw [if_pos ⟨h1, h2⟩]

theorem shouldCollide_same_nonzero_group_witness :
    shouldCollide (ShapeFilter.new (some 5) (some 1) (some 1))
      (ShapeFilter.new (some 5) (some 7) (some 7)) = false :=
  shouldCollide_same_nonzero_group _ _ (by decide) (by decide)

/-- Claim C2: when `A` and `B` do not share a non-zero group,
`shouldCollide A B` is `true` iff both category/mask bit tests are non-zero;
in particular a zero categories or mask field on either side forces `false`,
and concretely `shouldCollide (ShapeFilter 0 1 0) (ShapeFilter 0 1 1) = false`. -/
theorem shouldCollide_category_mask_test :
    (∀ A B : ShapeFilter, A.group = 0 ∨ B.group = 0 ∨ A.group ≠ B.group →
      (shouldCollide A B = true ↔
        Int.land A.categories B.mask ≠ 0 ∧ Int.land B.categories A.mask ≠ 0) ∧
      (A.categories = 0 ∨ A.mask = 0 ∨ B.categories = 0 ∨ B.mask = 0 →
        shouldCollide A B = false)) ∧
    shouldCollide (ShapeFilter.new (some 0) (some 1) (some 0))
      (ShapeFilter.new (some 0) (some 1) (some 1)) = false := by
  constructor
  · intro A B h
    have hcond : ¬(A.group ≠ 0 ∧ A.group = B.group) := by
      rcases h with h | h | h
      · exact fun hc => hc.1 h
      · exact fun hc => hc.1 (hc.2.trans h)
      · exact fun hc => h hc.2
    constructor
    · simp [shouldCollide, hcond]
    · intro hz
      rcases hz with hz | hz | hz | hz
      · simp [shouldCollide, hcond, hz, int_zero_land]
      · simp [shouldCollide, hcond, hz, int_land_zero]
      · simp [shouldCollide, hcond, hz, int_zero_land]
      · simp [shouldCollide, hcond, hz, int_land_zero]
  · decide

theorem shouldCollide_category_mask_test_witness :
    shouldCollide (ShapeFilter.new (some 0) (some 3) (some 1))
      (ShapeFilter.new none (some 1) (some 2)) = true :=
  (shouldCollide_category_mask_test.1 _ _ (Or.inl rfl)).1.mpr ⟨by decide, by decide⟩

/-- Claim C3: `shouldCollide` is symmetric in its two arguments. -/
theorem shouldCollide_symm (a b : ShapeFilter) :
    shouldCollide a b = shouldCollide b a := by
  unfold shouldCollide
  by_cases h : a.group ≠ 0 ∧ a.group = b.group
  · rw [if_pos h, if_pos ⟨h.2 ▸ h.1, h.2.symm⟩]
  · have h' : ¬(b.group ≠ 0 ∧ b.group = a.group) := fun hb => h ⟨hb.2 ▸ hb.1, hb.2.symm⟩
    rw [if_neg h, if_neg h', Bool.and_comm]

/-- Claim C4: two default-constructed filters (group 0, categories and mask
both `0xffffffff`) collide. -/
theorem shouldCollide_default_default :
    shouldCollide (ShapeFilter.new none none none) (ShapeFilter.new none none none) = true := by
  decide

/-- Claim C5, counterexample: the claim quantifies over all integer bit
patterns of `F`'s fields, but the fields are unbounded Python integers. The
filter `F = ShapeFilter 0 (2^32) (2^32)` has `F.categories ≠ 0` and
`F.mask ≠ 0`, yet its categories share no bit with the default 32-bit mask
`0xffffffff`, so `(F.categories & D.mask) = 0` against the default filter `D`. -/
theorem default_mask_allbits_cex :
    (ShapeFilter.new (some 0) (some (2 ^ 32)) (some (2 ^ 32))).categories ≠ 0 ∧
    (ShapeFilter.new (some 0) (some (2 ^ 32)) (some (2 ^ 32))).mask ≠ 0 ∧
    Int.land (ShapeFilter.new (some 0) (some (2 ^ 32)) (some (2 ^ 32))).categories
      (ShapeFilter.new none none none).mask = 0 := by
  refine ⟨by decide, by decide, ?_⟩
  decide

/-- Claim C5, amended: for fields within the 32-bit unsigned range covered by
the default all-ones masks (`0 ≤ value < 2^32`), a default-constructed filter
`D` matches every filter `F` in both directions: `F.categories ≠ 0` gives
`(F.categories & D.mask) ≠ 0`, and `F.mask ≠ 0` gives
`(D.categories & F.mask) ≠ 0`. -/
theorem default_mask_matches_in_32bit (g cat m : Int)
    (hc0 : 0 ≤ cat) (hc : cat < 2 ^ 32) (hm0 : 0 ≤ m) (hm : m < 2 ^ 32) :
    (cat ≠ 0 →
      Int.land (ShapeFilter.new (some g) (some cat) (some m)).categories
        (ShapeFilter.new none none none).mask ≠ 0) ∧
    (m ≠ 0 →
      Int.land (ShapeFilter.new none none none).categories
        (ShapeFilter.new (some g) (some cat) (some m)).mask ≠ 0) := by
  constructor
  · intro hne
    show Int.land cat 0xffffffff ≠ 0
    rw [int_land_allbits cat hc0 hc]
    exact hne
  · intro hne
    show Int.land 0xffffffff m ≠ 0
    rw [int_allbits_land m hm0 hm]
    exact hne

theorem default_mask_matches_in_32bit_witness :
    Int.land (ShapeFilter.new (some 0) (some 1) (some 1)).categories
      (ShapeFilter.new none none none).mask ≠ 0 :=
  (default_mask_matches_in_32bit 0 1 1 (by decide) (by decide) (by decide) (by decide)).1
    (by decide)

/-- Claim C6: each constructor argument omitted at a `Transform` construction
takes the identity value of its field (`a=1, b=0, c=0, d=1, tx=0, ty=0`),
independently per field; concretely, supplying only `b=3` and `ty=5` gives
the same value as supplying all six fields `(1, 3, 0, 1, 0, 5)`. -/
theorem transform_partial_defaults :
    (∀ oa ob oc od otx oty : Option ℚ,
      (oa = none → (Transform.new oa ob oc od otx oty).a = 1) ∧
      (ob = none → (Transform.new oa ob oc od otx oty).b = 0) ∧
      (oc = none → (Transform.new oa ob oc od otx oty).c = 0) ∧
      (od = none → (Transform.new oa ob oc od otx oty).d = 1) ∧
      (otx = none → (Transform.new oa ob oc od otx oty).tx = 0) ∧
      (oty = none → (Transform.new oa ob oc od otx oty).ty = 0) ∧
      (∀ v : ℚ, oa = some v → (Transform.new oa ob oc od otx oty).a = v) ∧
      (∀ v : ℚ, ob = some v → (Transform.new oa ob oc od otx oty).b = v) ∧
      (∀ v : ℚ, oc = some v → (Transform.new oa ob oc od otx oty).c = v) ∧
      (∀ v : ℚ, od = some v → (Transform.new oa ob oc od otx oty).d = v) ∧
      (∀ v : ℚ, otx = some v → (Transform.new oa ob oc od otx oty).tx = v) ∧
      (∀ v : ℚ, oty = some v → (Transform.new oa ob oc od otx oty).ty = v)) ∧
    Transform.new none (some 3) none none none (some 5) =
      Transform.new (some 1) (some 3) (some 0) (some 1) (some 0) (some 5) := by
  constructor
  · intro oa ob oc od otx oty
    refine ⟨?_, ?_, ?_, ?_, ?_, ?_, ?_, ?_, ?_, ?_, ?_, ?_⟩ <;>
      first
        | (intro h; subst h; rfl)
        | (intro v h; subst h; rfl)
  · rfl

theorem transform_partial_defaults_witness :
    (Transform.new none (some 3) none none none (some 5)).a = 1 :=
  (transform_partial_defaults.1 none (some 3) none none none (some 5)).1 rfl

/-- Claim C7: `apply` maps `(x, y)` to `(a*x + c*y + tx, b*x + d*y + ty)`
for every transform, and the identity transform maps `(3, 4)` to `(3, 4)`. -/
theorem transform_apply_formula :
    (∀ (t : Transform) (x y : ℚ),
      t.apply (x, y) = (t.a * x + t.c * y + t.tx, t.b * x + t.d * y + t.ty)) ∧
    Transform.identity.apply (3, 4) = (3, 4) := by
  refine ⟨fun t x y => rfl, ?_⟩
  show ((1 : ℚ) * 3 + 0 * 4 + 0, (0 : ℚ) * 3 + 1 * 4 + 0) = (3, 4)
  norm_num

/-- Claim C8: with the five filters of the worked scenario (category bit `k`
is `2^k`; all groups `0`), the stated matrix holds: player bullet vs enemy
bullet rejects, player vs wall collides, enemy vs enemy collides. -/
theorem worked_example_matrix :
    shouldCollide (ShapeFilter.new (some 0) (some (2 ^ 3)) (some (2 ^ 1 + 2 ^ 5)))
        (ShapeFilter.new (some 0) (some (2 ^ 4)) (some (2 ^ 2 + 2 ^ 5))) = false ∧
    shouldCollide (ShapeFilter.new (some 0) (some (2 ^ 1)) (some (2 ^ 4 + 2 ^ 5)))
        (ShapeFilter.new (some 0) (some (2 ^ 5)) (some (2 ^ 1 + 2 ^ 2 + 2 ^ 3 + 2 ^ 4))) = true ∧
    shouldCollide (ShapeFilter.new (some 0) (some (2 ^ 2)) (some (2 ^ 2 + 2 ^ 3 + 2 ^ 4)))
        (ShapeFilter.new (some 0) (some (2 ^ 2)) (some (2 ^ 2 + 2 ^ 3 + 2 ^ 4))) = true := by
  refine ⟨?_, ?_, ?_⟩ <;> decide

/-- Claim C9: `Transform.identity()` equals both the default construction
(all six arguments omitted) and the fully explicit `Transform(1,0,0,1,0,0)`. -/
theorem transform_identity_eq_default :
    Transform.identity = Transform.new none none none none none none ∧
    Transform.identity =
      Transform.new (some 1) (some 0) (some 0) (some 1) (some 0) (some 0) :=
  ⟨rfl, rfl⟩

/-- Claim C10: `ShapeFilter` construction stores its three integer arguments
exactly as given — the fields are unbounded integers, so no masking,
truncation, or validation occurs for any triple, negative or wider than
32 bits included. -/
theorem shapeFilter_stores_exactly (g c m : Int) :
    (ShapeFilter.new (some g) (some c) (some m)).group = g ∧
    (ShapeFilter.new (some g) (some c) (some m)).categories = c ∧
    (ShapeFilter.new (some g) (some c) (some m)).mask = m :=
  ⟨rfl, rfl, rfl⟩

end Pymunk
